import Mathlib

/-!
Verification development for the trendstory microservice.

We give a shallow embedding of the request-orchestration pipeline:
configuration constants (`config.py`), the news provider adapter
(`news_api_loader.py`), the trends fetcher (`trends_fetcher.py`), the mood
recognizer (`mood_recognizer.py`), the LLM engine (`llm_engine.py`), and the
two gRPC `Generate` handlers (`trendstory/service.py` and `grpc_server.py`).

External collaborators (the NewsAPI HTTP endpoint, DeepFace, the Ollama
backend, ISO-8601 timestamp parsing, wall-clock time) are modelled as
explicit oracle inputs: each embedded function takes the collaborator's
observable outcome as a parameter and computes exactly what the Python code
computes from that outcome.  Machine floats (emotion confidences) are
modelled as rationals; Python `Optional`/exceptions become `Option`/`Except`.
-/

namespace TrendStory

/-! ## Configuration (`src/trendstory/config.py`) -/

/-- `Settings.SUPPORTED_SOURCES` from `config.py`. -/
def SUPPORTED_SOURCES : List String := ["youtube", "google"]

/-- `Settings.SUPPORTED_THEMES` from `config.py`. -/
def SUPPORTED_THEMES : List String :=
  ["comedy", "tragedy", "sarcasm", "mystery", "romance", "sci-fi"]

/-- `Settings.DEFAULT_TRENDS_LIMIT` from `config.py`. -/
def DEFAULT_TRENDS_LIMIT : Int := 5

/-- `Settings.MODEL_NAME` from `config.py`. -/
def MODEL_NAME : String := "dolphin3:latest"

/-- `Settings.PROMPT_TEMPLATES` from `config.py`, as an association list in
source order.  Python `{topics}` / `{theme}` placeholders are kept verbatim
in the strings (braces written by code). -/
def PROMPT_TEMPLATES : List (String × String) :=
  [("default", "Create a short story incorporating the following current trending topics: \x7btopics\x7d. Make it \x7btheme\x7d themed. Use only current events and avoid any future dates or predictions."),
   ("comedy", "Write a humorous and lighthearted story that includes these current trending topics: \x7btopics\x7d. Make it funny and witty, but stick to current events only."),
   ("tragedy", "Write a sad and emotional story that incorporates these current trending topics: \x7btopics\x7d. Focus on loss and difficult emotions, using only present-day events."),
   ("sarcasm", "Write a sarcastic and ironic story that makes fun of these current trending topics: \x7btopics\x7d. Don't hold back on the cynicism, but keep it grounded in present reality."),
   ("mystery", "Write a suspenseful mystery story that weaves in these current trending topics: \x7btopics\x7d. Include a twist ending if possible, but avoid any future dates or predictions."),
   ("romance", "Write a romantic story that incorporates these current trending topics: \x7btopics\x7d. Focus on the relationship between characters in present-day settings."),
   ("sci-fi", "Write a science fiction story that references these current trending topics: \x7btopics\x7d. While it can be futuristic, avoid specific future dates and keep it grounded in current technology trends.")]

/-! ## Python helpers

`pyTake n l` is Python's slice `l[:n]` (negative stops count from the end);
`pyFloorDiv` is Python's `//` on integers. -/

/-- Python list slicing `l[:n]`, including negative `n`. -/
def pyTake (n : Int) (l : List α) : List α :=
  if n < 0 then l.take (((l.length : Int) + n).toNat) else l.take n.toNat

/-- Python integer floor division `//`. -/
def pyFloorDiv (a b : Int) : Int := Int.fdiv a b

/-- Python substring containment `needle in hay` on strings. -/
def pyInStr (needle hay : String) : Bool :=
  let nl := needle.toList
  let hl := hay.toList
  (List.range (hl.length + 1)).any (fun i => nl.isPrefixOf (hl.drop i))

/-- Python `str.strip()`: drop leading and trailing whitespace.  (Executable
on the character list so that concrete instances evaluate in the kernel.) -/
def pyStrip (s : String) : String :=
  ⟨((s.data.dropWhile Char.isWhitespace).reverse.dropWhile
      Char.isWhitespace).reverse⟩

/-- Python `str.lower()` on the ASCII range (all strings this codebase
compares after lowering are ASCII). -/
def pyLower (s : String) : String :=
  ⟨s.data.map Char.toLower⟩

/-- The order- and first-occurrence-preserving deduplication performed by
`list(dict.fromkeys(all_trends))` in `trends_fetcher.py`, written with an
explicit "seen" accumulator. -/
def dedupFirstAux (seen : List String) : List String → List String
  | [] => []
  | x :: xs =>
    if x ∈ seen then dedupFirstAux seen xs
    else x :: dedupFirstAux (x :: seen) xs

/-- `list(dict.fromkeys(l))`: drop later duplicates, keep first occurrences
in order. -/
def dedupFirst (l : List String) : List String := dedupFirstAux [] l

/-! ## News provider adapter (`src/trendstory/news_api_loader.py`) -/

/-- A NewsAPI article as consumed by this codebase: its `title` and
`publishedAt` fields (`None` publish dates are `none`). -/
structure Article where
  title : String
  publishedAt : Option String
deriving DecidableEq, Repr

/-- The observable outcome of one `requests.get` call to the provider:
either the call raised, or it returned an HTTP status plus the decoded
`articles` list. -/
inductive ProviderOutcome where
  | exn : ProviderOutcome
  | http : Nat → List Article → ProviderOutcome
deriving DecidableEq, Repr

/-- Timestamp parsing oracle: `datetime.fromisoformat(s.replace('Z','+00:00'))`
modelled as an abstract partial map from the raw string to epoch seconds
(`none` = `ValueError`). -/
def ParseOracle := String → Option Int

/-- Seconds in 30 days, `timedelta(days=30)` from `news_api_loader.py`. -/
def thirtyDays : Int := 30 * 86400

/-- The per-article filter of `NewsAPILoader.fetch_news` (lines 76-101):
articles without a `publishedAt`, with an unparsable date, with a future
date, or older than 30 days are dropped. -/
def keepArticle (parse : ParseOracle) (now : Int) (a : Article) : Bool :=
  match a.publishedAt with
  | none => false
  | some s =>
    match parse s with
    | none => false
    | some d => decide (¬ d > now) && decide (¬ d < now - thirtyDays)

/-- `NewsAPILoader.fetch_news`: `none` models the Python `None` result (any
exception, or a non-200 HTTP status); a 200 response yields the date-filtered
article list. -/
def fetch_news (parse : ParseOracle) (now : Int) (o : ProviderOutcome) :
    Option (List Article) :=
  match o with
  | .exn => none
  | .http status articles =>
    if status = 200 then some (articles.filter (keepArticle parse now))
    else none

/-! ## Trends fetcher (`src/trendstory/trends_fetcher.py`) -/

/-- The fixed blocklist of unwanted title phrases in
`TrendsFetcher._fetch_youtube_trends` / `_fetch_google_trends`. -/
def blockedPhrases : List String :=
  ["gold house", "nasdaq", "power summit", "a100",
   "mike waltz", "left the chat", "night court",
   "season 3", "daily litg"]

/-- The per-article keep condition in the title-extraction loop of
`_fetch_youtube_trends` / `_fetch_google_trends` (lines 89-115): non-empty
title, publish date (when present) parsable and not in the future, and no
blocklisted phrase in the lowercased title. -/
def keepTitle (parse : ParseOracle) (now : Int) (a : Article) : Bool :=
  a.title ≠ "" &&
  (match a.publishedAt with
   | none => true
   | some s =>
     match parse s with
     | none => false
     | some d => decide (¬ d > now)) &&
  ! blockedPhrases.any (fun p => pyInStr p (pyLower a.title))

/-- What one category contributes to `all_trends` in the fetch loop: nothing
when `fetch_news` returned `None` or an empty list, otherwise the kept
titles. -/
def categoryTrends (parse : ParseOracle) (now : Int)
    (resp : Option (List Article)) : List String :=
  match resp with
  | none => []
  | some articles =>
    if articles = [] then []
    else (articles.filter (keepTitle parse now)).map Article.title

/-- The shared body of `TrendsFetcher._fetch_youtube_trends` and
`TrendsFetcher._fetch_google_trends`, parameterised by the `fetch_news`
result for each randomly sampled category: concatenate per-category titles,
deduplicate keeping first occurrences, return `[]` if nothing survived,
else truncate to `limit`. -/
def fetchSourceTrends (parse : ParseOracle) (now : Int)
    (responses : List (Option (List Article))) (limit : Int) : List String :=
  let all_trends := (responses.map (categoryTrends parse now)).flatten
  let unique_trends := dedupFirst all_trends
  if unique_trends = [] then [] else pyTake limit unique_trends

/-- The provider responses an environment supplies: one `fetch_news` outcome
per sampled category, separately for the "youtube" and "google" code paths
(which hit the same NewsAPI with different sort orders). -/
structure TrendsEnv where
  parse : ParseOracle
  now : Int
  ytOutcomes : List ProviderOutcome
  gOutcomes : List ProviderOutcome

/-- The `fetch_news` results seen by `_fetch_youtube_trends`. -/
def TrendsEnv.ytResponses (env : TrendsEnv) : List (Option (List Article)) :=
  env.ytOutcomes.map (fetch_news env.parse env.now)

/-- The `fetch_news` results seen by `_fetch_google_trends`. -/
def TrendsEnv.gResponses (env : TrendsEnv) : List (Option (List Article)) :=
  env.gOutcomes.map (fetch_news env.parse env.now)

/-- `TrendsFetcher.fetch_trends(source, limit)`: dispatch on the source
selector; `"all"` combines a half-limit YouTube fetch with a Google fetch
for the remainder and truncates; unknown sources fall back to the Google
path. -/
def fetch_trends (env : TrendsEnv) (source : String) (limit : Int) :
    List String :=
  if source = "youtube" then
    fetchSourceTrends env.parse env.now env.ytResponses limit
  else if source = "google" then
    fetchSourceTrends env.parse env.now env.gResponses limit
  else if source = "all" then
    let youtube_trends :=
      fetchSourceTrends env.parse env.now env.ytResponses (pyFloorDiv limit 2)
    let google_trends :=
      fetchSourceTrends env.parse env.now env.gResponses
        (limit - youtube_trends.length)
    pyTake limit (youtube_trends ++ google_trends)
  else
    fetchSourceTrends env.parse env.now env.gResponses limit

/-- `TrendsFetcher._get_fallback_trends`: the fixed hard-coded fallback
list, truncated to `limit`.  (Defined in the source but called from no
production code path.) -/
def get_fallback_trends (limit : Int) : List String :=
  pyTake limit
    ["Latest developments in artificial intelligence",
     "Climate change mitigation strategies",
     "Global economic outlook for 2025",
     "Advancements in renewable energy technology",
     "Space exploration milestones",
     "Healthcare innovation and medical breakthroughs",
     "Cybersecurity challenges and solutions",
     "Digital transformation in business",
     "Sustainable development initiatives",
     "Geopolitical shifts and international relations"]

/-! ## Mood recognizer (`src/trendstory/mood_recognizer.py`)

DeepFace confidences are Python floats; we model them as rationals.  The
outcome of one `DeepFace.analyze` call is an oracle value. -/

/-- Observable outcome of `DeepFace.analyze` for one image: the call raised,
returned something that is not a non-empty list (`Invalid analysis result
format`), or returned a first result whose `emotion` dict has the given
label/confidence pairs (possibly empty). -/
inductive DeepFaceOutcome where
  | raises : DeepFaceOutcome
  | invalid : DeepFaceOutcome
  | ok : List (String × ℚ) → DeepFaceOutcome
deriving DecidableEq, Repr

/-- `MoodRecognizer.emotion_map` from `mood_recognizer.py`. -/
def emotion_map : List (String × String) :=
  [("angry", "angry"), ("disgust", "negative"), ("fear", "anxious"),
   ("happy", "happy"), ("sad", "sad"), ("surprise", "excited"),
   ("neutral", "neutral")]

/-- `MoodRecognizer.confidence_threshold` from `mood_recognizer.py`. -/
def confidence_threshold : ℚ := 2/5

/-- Python `max(emotions.items(), key=lambda x: x[1])`: the pair with the
greatest confidence, first such pair on ties; `none` on an empty dict. -/
def argmaxEmotion : List (String × ℚ) → Option (String × ℚ)
  | [] => none
  | x :: xs => some (xs.foldl (fun b y => if y.2 > b.2 then y else b) x)

/-- The per-image body of `MoodRecognizer.recognize_mood`: missing file,
raised analysis, malformed result, or empty emotion dict all yield
`"neutral"`; otherwise the argmax emotion is mapped through `emotion_map`
(defaulting to `"neutral"`) when its confidence exceeds the threshold, and
is replaced by `"neutral"` at or below it. -/
def recognize_mood_one (fileExists : Bool) (o : DeepFaceOutcome) : String :=
  if !fileExists then "neutral"
  else
    match o with
    | .raises => "neutral"
    | .invalid => "neutral"
    | .ok emotions =>
      match argmaxEmotion emotions with
      | none => "neutral"
      | some em =>
        if em.2 > confidence_threshold then
          ((emotion_map.lookup em.1).getD "neutral")
        else "neutral"

/-- `MoodRecognizer.recognize_mood` on a list of image paths, each path
paired with its existence flag and its `DeepFace.analyze` outcome. -/
def recognize_mood (images : List (Bool × DeepFaceOutcome)) : List String :=
  images.map (fun i => recognize_mood_one i.1 i.2)

/-! ## LLM engine (`src/trendstory/llm_engine.py`) -/

/-- Observable outcome of one `session.post` to the Ollama API: the call (or
the session itself) raised with the given message, or it returned an HTTP
status together with the JSON `response` field of the body. -/
inductive LLMOutcome where
  | exn : String → LLMOutcome
  | http : Nat → String → LLMOutcome
deriving DecidableEq, Repr

/-- A backend call that did not succeed: transport error or non-200
status.  (`llm_engine.py` raises `RuntimeError` in exactly these cases.) -/
def llmFailed : LLMOutcome → Prop
  | .exn _ => True
  | .http status _ => status ≠ 200

instance : DecidablePred llmFailed := fun o =>
  match o with
  | .exn _ => .isTrue trivial
  | .http status _ => inferInstanceAs (Decidable (status ≠ 200))

/-- `LLMEngine.select_theme_for_mood`: ask the backend for a theme for the
detected mood; a raised call or a non-200 status falls back to `"comedy"`
(the `except` branch); a 200 answer is stripped, lowercased and validated
against `SUPPORTED_THEMES`, with `"comedy"` substituted for out-of-set
answers.  The mood only influences the prompt, never the control flow. -/
def select_theme_for_mood (_mood : String) (o : LLMOutcome) : String :=
  match o with
  | .exn _ => "comedy"
  | .http status response =>
    if status ≠ 200 then "comedy"
    else
      let selected_theme := pyLower (pyStrip response)
      if selected_theme ∈ SUPPORTED_THEMES then selected_theme else "comedy"

/-- Lines 130-133 of `llm_engine.py`: the prompt template for a theme,
`settings.PROMPT_TEMPLATES.get(theme, settings.PROMPT_TEMPLATES["default"])`. -/
def prompt_template (theme : String) : String :=
  (PROMPT_TEMPLATES.lookup theme).getD ((PROMPT_TEMPLATES.lookup "default").getD "")

/-- The `prompt_template.format(topics=..., theme=...)` substitution inside
`generate_story`'s prompt construction. -/
def formatTemplate (template topicsStr theme : String) : String :=
  (template.replace "\x7btopics\x7d" topicsStr).replace "\x7btheme\x7d" theme

/-- The fields of the dictionary returned by `LLMEngine.generate_story`
that the service layer consumes. -/
structure StoryResult where
  story : String
  metaTheme : String
  metaMood : String
  topicsUsed : List String
deriving DecidableEq, Repr

/-- `LLMEngine.generate_story(topics, theme, mood)` (Python `None` and `""`
are both falsy for `theme`/`mood`; we model both as `""`).  An empty theme
is replaced by the mood-driven selection when a mood is present, else by
`"comedy"`; the prompt is built from the theme's template (or the default
template); a raised or non-200 backend call becomes a `RuntimeError`
(`Except.error`), otherwise the body's `response` field is the story. -/
def generate_story (selOutcome genOutcome : LLMOutcome)
    (topics : List String) (theme mood : String) :
    Except String StoryResult :=
  let theme :=
    if mood ≠ "" && theme = "" then select_theme_for_mood mood selOutcome
    else if theme = "" then "comedy"
    else theme
  let topics_str := String.intercalate ", " topics
  let _input_text := formatTemplate (prompt_template theme) topics_str theme
  match genOutcome with
  | .exn msg =>
    .error ("Error generating story with Dolphin LLM: " ++ msg)
  | .http status response =>
    if status ≠ 200 then
      .error ("Error generating story with Dolphin LLM: Ollama API error: "
              ++ toString status)
    else
      .ok { story := response
            metaTheme := theme
            metaMood := if mood = "" then "neutral" else mood
            topicsUsed := topics }

/-! ## gRPC surface -/

/-- The gRPC status codes this service sets. -/
inductive RpcStatus where
  | ok : RpcStatus
  | invalidArgument : RpcStatus
  | internal : RpcStatus
deriving DecidableEq, Repr

/-- The fields of `GenerateRequest` (proto3 defaults: empty strings, 0). -/
structure GenRequest where
  theme : String
  source : String
  limit : Int
  imagePath : String
deriving DecidableEq, Repr

/-- The fields of `GenerateResponse` (with the metadata flattened) that the
claims talk about.  Proto3 defaults for an empty `GenerateResponse()` are
empty strings / 0 / empty list. -/
structure GenResponse where
  story : String
  statusCode : Int
  errorMessage : String
  topicsUsed : List String
  metaTheme : String
  metaMood : String
  metaSource : String
  detectedMood : String
deriving DecidableEq, Repr

/-- `trendstory_pb2.GenerateResponse()` with no fields set. -/
def emptyResponse : GenResponse :=
  { story := "", statusCode := 0, errorMessage := "", topicsUsed := [],
    metaTheme := "", metaMood := "", metaSource := "", detectedMood := "" }

/-- What one RPC produces: the status set on the gRPC context, the detail
message set with it, and the returned response message. -/
structure GrpcResult where
  code : RpcStatus
  details : String
  response : GenResponse
deriving DecidableEq, Repr

/-! ## Standalone server handler (`src/grpc_server.py`) -/

/-- The oracle environment of one `TrendStoryServicer.Generate` call in
`grpc_server.py`: the trend-provider oracle, whether the requested image
path exists, the `DeepFace.analyze` outcome, and the Ollama outcomes of the
theme-selection call and the story-generation call. -/
structure GrpcEnv where
  trends : TrendsEnv
  imageExists : Bool
  dfOutcome : DeepFaceOutcome
  selOutcome : LLMOutcome
  genOutcome : LLMOutcome

/-- Lines 46-69 of `grpc_server.py`: mood detection.  When a non-whitespace
image path is supplied (and exists — the missing-file case is handled in
`grpc_Generate`), the recognizer's answer becomes the detected mood unless
it is `"error"` (which `recognize_mood` never produces — the recognizer
fails soft internally, so the servicer's own `except` arm is dead code). -/
def grpcDetectedMood (env : GrpcEnv) (req : GenRequest) : Option String :=
  if req.imagePath ≠ "" && pyStrip req.imagePath ≠ "" then
    match recognize_mood [(env.imageExists, env.dfOutcome)] with
    | [] => none
    | m :: _ => if m ≠ "error" then some m else none
  else none

/-- Lines 83-98 of `grpc_server.py`: theme selection.  An explicit theme is
used verbatim; otherwise a detected mood is sent to the LLM selector, with
`"comedy"` as the no-mood default; a final guard replaces an empty or
whitespace-only selection by `"comedy"`. -/
def grpcSelectedTheme (env : GrpcEnv) (req : GenRequest) : String :=
  let selected_theme :=
    if req.theme ≠ "" then req.theme
    else
      match grpcDetectedMood env req with
      | some mood => select_theme_for_mood mood env.selOutcome
      | none => "comedy"
  if selected_theme = "" || pyStrip selected_theme = "" then "comedy"
  else selected_theme

/-- `TrendStoryServicer.Generate` from `grpc_server.py`.

Control flow mirrored from the source: (1) when a non-whitespace image path
is supplied, a missing file aborts with `INVALID_ARGUMENT`, otherwise the
mood recognizer runs (`grpcDetectedMood`); (2) trends are fetched once with
the literal source `"news"` (an unknown selector, hence the Google path)
and an empty result aborts with `INTERNAL` — `get_fallback_trends` is never
consulted; (3) the theme is resolved by `grpcSelectedTheme`; (4) story
generation failure lands in the outer `except`: `INTERNAL`,
`status_code = 1` and the error message, no story. -/
def grpc_Generate (env : GrpcEnv) (req : GenRequest) : GrpcResult :=
  if req.imagePath ≠ "" && pyStrip req.imagePath ≠ "" && !env.imageExists then
    { code := .invalidArgument,
      details := "Image file not found: " ++ pyStrip req.imagePath,
      response := emptyResponse }
  else if fetch_trends env.trends "news" req.limit = [] then
    { code := .internal, details := "Failed to fetch trending topics",
      response := emptyResponse }
  else
    match generate_story env.selOutcome env.genOutcome
        (fetch_trends env.trends "news" req.limit)
        (grpcSelectedTheme env req)
        ((grpcDetectedMood env req).getD "") with
    | .error msg =>
      { code := .internal, details := msg,
        response :=
          { story := "", statusCode := 1, errorMessage := msg,
            topicsUsed := [], metaTheme := "", metaMood := "",
            metaSource := "", detectedMood := "" } }
    | .ok result =>
      { code := .ok, details := "",
        response :=
          { story := result.story, statusCode := 0, errorMessage := "",
            topicsUsed := fetch_trends env.trends "news" req.limit,
            metaTheme := grpcSelectedTheme env req,
            metaMood := (grpcDetectedMood env req).getD "neutral",
            metaSource := req.source,
            detectedMood := (grpcDetectedMood env req).getD "neutral" } }

/-! ## Packaged servicer (`src/trendstory/service.py`)

This is the servicer exported by `trendstory/__init__.py` and served by
`trendstory/main.py` (the `trendstory-server` entry point).  Validation
failures call `context.abort`, which raises and terminates the RPC with the
given status, so the handler is an `Except` over abort statuses.  To make
"no downstream call was made" statable, the handler also returns the list
of downstream calls it performed, in order. -/

/-- Downstream calls the packaged servicer can make. -/
inductive Call where
  | fetchTrendsCall : Call
  | generateStoryCall : Call
deriving DecidableEq, Repr

/-- Line 61 of `service.py`: the effective theme,
`request.theme if request.theme else "default"`. -/
def serviceTheme (req : GenRequest) : String :=
  if req.theme ≠ "" then req.theme else "default"

/-- Line 62 of `service.py`: the effective limit,
`request.limit if request.limit > 0 else settings.DEFAULT_TRENDS_LIMIT`. -/
def serviceLimit (req : GenRequest) : Int :=
  if req.limit > 0 then req.limit else DEFAULT_TRENDS_LIMIT

/-- `TrendStoryServicer.Generate` from `trendstory/service.py`: validate
source (non-empty and supported) then theme (if supplied, supported);
substitute `"default"` for a missing theme and the default limit for a
non-positive one; fetch trends (the embedded fetcher is total, so the
`ValueError`/`RuntimeError` abort arms around it are unreachable); generate
the story, turning its `RuntimeError` into an `INTERNAL` abort; on success
answer with `status_code = 0` and the topics and theme in the metadata. -/
def service_Generate (env : GrpcEnv) (req : GenRequest) :
    Except (RpcStatus × String) GenResponse × List Call :=
  if req.source = "" then
    (.error (.invalidArgument, "Source must be specified"), [])
  else if req.source ∉ SUPPORTED_SOURCES then
    (.error (.invalidArgument, "Unsupported source: " ++ req.source), [])
  else if req.theme ≠ "" && req.theme ∉ SUPPORTED_THEMES then
    (.error (.invalidArgument, "Unsupported theme: " ++ req.theme), [])
  else
    match generate_story env.selOutcome env.genOutcome
        (fetch_trends env.trends req.source (serviceLimit req))
        (serviceTheme req) "" with
    | .error msg =>
      (.error (.internal, msg), [.fetchTrendsCall, .generateStoryCall])
    | .ok result =>
      (.ok { story := result.story, statusCode := 0, errorMessage := "",
             topicsUsed := fetch_trends env.trends req.source (serviceLimit req),
             metaTheme := serviceTheme req, metaMood := "",
             metaSource := req.source, detectedMood := "" },
       [.fetchTrendsCall, .generateStoryCall])

/-! ## Outcome predicates used by the claims -/

/-- A trend-provider call that "fails outright": the HTTP call raised, the
status was not 200, or the decoded article list was empty. -/
def providerFailsOutright : ProviderOutcome → Prop
  | .exn => True
  | .http status articles => status ≠ 200 ∨ articles = []

instance : DecidablePred providerFailsOutright := fun o =>
  match o with
  | .exn => .isTrue trivial
  | .http status articles =>
    inferInstanceAs (Decidable (status ≠ 200 ∨ articles = []))

/-! ## Concrete environments for witnesses and counterexamples -/

/-- A parse oracle that reads every timestamp as epoch 0. -/
def parse0 : ParseOracle := fun _ => some 0

/-- A provider outcome delivering one article titled `"T"`. -/
def httpT : ProviderOutcome := .http 200 [⟨"T", some "d"⟩]

/-- Environment in which both the YouTube and the Google code paths see the
same single article `"T"` (they query the same NewsAPI). -/
def envDupT : TrendsEnv :=
  { parse := parse0, now := 0, ytOutcomes := [httpT], gOutcomes := [httpT] }

/-- Environment whose single Google-path provider call raises. -/
def envC1 : GrpcEnv :=
  { trends := { parse := parse0, now := 0, ytOutcomes := [.exn],
                gOutcomes := [.exn] },
    imageExists := true, dfOutcome := .raises,
    selOutcome := .exn "down", genOutcome := .exn "down" }

/-- Request with no theme and no image. -/
def reqC1 : GenRequest :=
  { theme := "", source := "youtube", limit := 3, imagePath := "" }

/-- Environment for the C3 counterexample: the image exists but
`DeepFace.analyze` raises; the provider yields one usable article; the
theme-selection LLM call answers `"mystery"`; story generation succeeds. -/
def envC3 : GrpcEnv :=
  { trends := { parse := parse0, now := 0, ytOutcomes := [],
                gOutcomes := [.http 200 [⟨"Quantum computing", some "d"⟩]] },
    imageExists := true, dfOutcome := .raises,
    selOutcome := .http 200 "mystery", genOutcome := .http 200 "a story" }

/-- Request with an image but no theme. -/
def reqC3 : GenRequest :=
  { theme := "", source := "news", limit := 1, imagePath := "img.jpg" }

/-- A healthy environment: one usable article, theme selection unavailable,
story generation succeeding with `"s"`. -/
def envOk : GrpcEnv :=
  { trends := { parse := parse0, now := 0, ytOutcomes := [httpT],
                gOutcomes := [httpT] },
    imageExists := true, dfOutcome := .raises,
    selOutcome := .exn "down", genOutcome := .http 200 "s" }

/-- A request with the valid theme `"comedy"` and no image. -/
def reqComedy : GenRequest :=
  { theme := "comedy", source := "youtube", limit := 3, imagePath := "" }

/-- Request with an unsupported theme. -/
def reqBadTheme : GenRequest :=
  { theme := "not-a-real-theme", source := "youtube", limit := 3,
    imagePath := "" }

/-- Request with neither theme nor image. -/
def reqNoThemeNoImg : GenRequest :=
  { theme := "", source := "news", limit := 3, imagePath := "" }

/-- Environment whose generation backend answers 500. -/
def envGen500 : GrpcEnv :=
  { trends := { parse := parse0, now := 0, ytOutcomes := [httpT],
                gOutcomes := [httpT] },
    imageExists := true, dfOutcome := .raises,
    selOutcome := .exn "down", genOutcome := .http 500 "" }

/-! ## Helper lemmas -/

theorem dedupFirstAux_sublist (l : List String) :
    ∀ seen, (dedupFirstAux seen l).Sublist l := by
  induction l with
  | nil => intro seen; simp [dedupFirstAux]
  | cons x xs ih =>
    intro seen
    simp only [dedupFirstAux]
    split
    · exact (ih seen).trans (List.sublist_cons_self x xs)
    · exact (ih (x :: seen)).cons₂ x

theorem not_mem_seen_of_mem_dedupFirstAux (l : List String) :
    ∀ seen x, x ∈ dedupFirstAux seen l → x ∉ seen := by
  induction l with
  | nil => intro seen x h; simp [dedupFirstAux] at h
  | cons y ys ih =>
    intro seen x h
    simp only [dedupFirstAux] at h
    split at h
    · exact ih seen x h
    · rcases List.mem_cons.mp h with rfl | hm
      · assumption
      · intro hx
        exact ih (y :: seen) x hm (List.mem_cons_of_mem _ hx)

theorem dedupFirstAux_nodup (l : List String) :
    ∀ seen, (dedupFirstAux seen l).Nodup := by
  induction l with
  | nil => intro seen; simp [dedupFirstAux]
  | cons y ys ih =>
    intro seen
    simp only [dedupFirstAux]
    split
    · exact ih seen
    · refine List.nodup_cons.mpr ⟨?_, ih (y :: seen)⟩
      intro hy
      exact not_mem_seen_of_mem_dedupFirstAux ys (y :: seen) y hy
        (List.mem_cons_self y seen)

theorem dedupFirst_sublist (l : List String) : (dedupFirst l).Sublist l :=
  dedupFirstAux_sublist l []

theorem dedupFirst_nodup (l : List String) : (dedupFirst l).Nodup :=
  dedupFirstAux_nodup l []

theorem pyTake_sublist (n : Int) (l : List α) : (pyTake n l).Sublist l := by
  unfold pyTake
  split <;> exact List.take_sublist _ _

theorem pyTake_length_le (n : Int) (hn : 0 ≤ n) (l : List α) :
    (pyTake n l).length ≤ n.toNat := by
  unfold pyTake
  rw [if_neg (by omega)]
  rw [List.length_take]
  exact Nat.min_le_left _ _

theorem pyTake_ne_nil (n : Int) (hn : 0 < n) (l : List α) (hl : l ≠ []) :
    pyTake n l ≠ [] := by
  unfold pyTake
  rw [if_neg (by omega)]
  intro h
  rcases List.take_eq_nil_iff.mp h with h' | h'
  · omega
  · exact hl h'

theorem fetchSourceTrends_length_le (parse : ParseOracle) (now : Int)
    (responses : List (Option (List Article))) (limit : Int) (hn : 0 ≤ limit) :
    (fetchSourceTrends parse now responses limit).length ≤ limit.toNat := by
  simp only [fetchSourceTrends]
  split
  · simp
  · exact pyTake_length_le _ hn _

theorem fetchSourceTrends_nodup (parse : ParseOracle) (now : Int)
    (responses : List (Option (List Article))) (limit : Int) :
    (fetchSourceTrends parse now responses limit).Nodup := by
  simp only [fetchSourceTrends]
  split
  · simp
  · exact ((pyTake_sublist _ _).nodup) (dedupFirst_nodup _)

theorem fetchSourceTrends_sublist (parse : ParseOracle) (now : Int)
    (responses : List (Option (List Article))) (limit : Int) :
    (fetchSourceTrends parse now responses limit).Sublist
      ((responses.map (categoryTrends parse now)).flatten) := by
  simp only [fetchSourceTrends]
  split
  · simp
  · exact (pyTake_sublist _ _).trans (dedupFirst_sublist _)

/-- The theme the LLM picks for a mood is always in the supported set. -/
theorem select_theme_for_mood_mem (mood : String) (o : LLMOutcome) :
    select_theme_for_mood mood o ∈ SUPPORTED_THEMES := by
  cases o with
  | exn m => simp [select_theme_for_mood, SUPPORTED_THEMES]
  | http status response =>
    simp only [select_theme_for_mood]
    split
    · decide
    · split
      · assumption
      · decide

/-- No supported theme is empty or whitespace-only. -/
theorem supported_trim_ne : ∀ t ∈ SUPPORTED_THEMES, ¬ (t = "" ∨ pyStrip t = "") := by
  decide

/-- A provider call that fails outright yields `None` or no articles. -/
theorem fetch_news_of_failure (parse : ParseOracle) (now : Int)
    (o : ProviderOutcome) (h : providerFailsOutright o) :
    fetch_news parse now o = none ∨ fetch_news parse now o = some [] := by
  cases o with
  | exn => exact .inl rfl
  | http status articles =>
    simp only [providerFailsOutright] at h
    rcases h with h | h
    · exact .inl (by simp [fetch_news, h])
    · subst h
      by_cases hs : status = 200
      · exact .inr (by simp [fetch_news, hs])
      · exact .inl (by simp [fetch_news, hs])

/-- When every sampled category's provider call fails outright, the fetcher
returns the empty list. -/
theorem fetchSourceTrends_of_failures (parse : ParseOracle) (now : Int)
    (outcomes : List ProviderOutcome) (limit : Int)
    (hfail : ∀ o ∈ outcomes, providerFailsOutright o) :
    fetchSourceTrends parse now
      (outcomes.map (fetch_news parse now)) limit = [] := by
  have hflat : ((outcomes.map (fetch_news parse now)).map
      (categoryTrends parse now)).flatten = [] := by
    rw [List.flatten_eq_nil_iff]
    intro l hl
    rw [List.map_map] at hl
    obtain ⟨o, ho, rfl⟩ := List.mem_map.mp hl
    rcases fetch_news_of_failure parse now o (hfail o ho) with h | h <;>
      simp [Function.comp, h, categoryTrends]
  simp only [fetchSourceTrends, hflat]
  rfl

/-- The unknown selector `"news"` used by `grpc_server.py` lands in the
Google fallback branch of `fetch_trends`. -/
theorem fetch_trends_news (env : TrendsEnv) (limit : Int) :
    fetch_trends env "news" limit =
      fetchSourceTrends env.parse env.now env.gResponses limit := by
  unfold fetch_trends
  rw [if_neg (by decide), if_neg (by decide), if_neg (by decide)]

/-- Exhaustive case analysis of the standalone handler's result. -/
theorem grpc_Generate_cases (env : GrpcEnv) (req : GenRequest) :
    ((req.imagePath ≠ "" && pyStrip req.imagePath ≠ ""
        && !env.imageExists) = true ∧
     grpc_Generate env req =
      { code := .invalidArgument,
        details := "Image file not found: " ++ pyStrip req.imagePath,
        response := emptyResponse }) ∨
    (fetch_trends env.trends "news" req.limit = [] ∧
     grpc_Generate env req =
      { code := .internal, details := "Failed to fetch trending topics",
        response := emptyResponse }) ∨
    (∃ msg,
      generate_story env.selOutcome env.genOutcome
          (fetch_trends env.trends "news" req.limit)
          (grpcSelectedTheme env req)
          ((grpcDetectedMood env req).getD "") = .error msg ∧
      grpc_Generate env req =
        { code := .internal, details := msg,
          response :=
            { story := "", statusCode := 1, errorMessage := msg,
              topicsUsed := [], metaTheme := "", metaMood := "",
              metaSource := "", detectedMood := "" } }) ∨
    (∃ result,
      generate_story env.selOutcome env.genOutcome
          (fetch_trends env.trends "news" req.limit)
          (grpcSelectedTheme env req)
          ((grpcDetectedMood env req).getD "") = .ok result ∧
      grpc_Generate env req =
        { code := .ok, details := "",
          response :=
            { story := result.story, statusCode := 0, errorMessage := "",
              topicsUsed := fetch_trends env.trends "news" req.limit,
              metaTheme := grpcSelectedTheme env req,
              metaMood := (grpcDetectedMood env req).getD "neutral",
              metaSource := req.source,
              detectedMood := (grpcDetectedMood env req).getD "neutral" } }) := by
  unfold grpc_Generate
  split
  · rename_i hc
    exact .inl ⟨hc, rfl⟩
  · split
    · rename_i ht
      exact .inr (.inl ⟨ht, rfl⟩)
    · split
      · rename_i msg hgen
        exact .inr (.inr (.inl ⟨msg, hgen, rfl⟩))
      · rename_i result hgen
        exact .inr (.inr (.inr ⟨result, hgen, rfl⟩))

/-- Error messages raised by `generate_story` are never empty. -/
theorem gen_error_ne_empty (s : String) :
    ("Error generating story with Dolphin LLM: " ++ s) ≠ "" := by
  intro h
  have hd := congrArg String.data h
  obtain ⟨ds⟩ := s
  have he : ("Error generating story with Dolphin LLM: " ++
      ({ data := ds } : String)).data =
      "Error generating story with Dolphin LLM: ".data ++ ds := rfl
  rw [he] at hd
  rw [List.append_eq_nil] at hd
  exact absurd (congrArg List.length hd.1) (by decide)

/-- Appending to a non-empty string never yields the empty string. -/
theorem append_ne_empty_left (a s : String) (ha : a ≠ "") :
    (a ++ s) ≠ "" := by
  intro h
  obtain ⟨da⟩ := a
  obtain ⟨ds⟩ := s
  have hd := congrArg String.data h
  have he : (({ data := da } : String) ++ ({ data := ds } : String)).data =
      da ++ ds := rfl
  rw [he] at hd
  rw [List.append_eq_nil] at hd
  exact ha (by rw [hd.1])

/-- The whitespace guard in `grpcSelectedTheme` never fires on a supported
theme. -/
theorem supported_guard_false :
    ∀ t ∈ SUPPORTED_THEMES,
      (decide (t = "") || decide (pyStrip t = "")) = false := by
  decide

/-- A failed backend call makes `generate_story` raise a non-empty
`RuntimeError` message, whatever the inputs. -/
theorem generate_story_failed (selO genO : LLMOutcome)
    (topics : List String) (theme mood : String) (hfail : llmFailed genO) :
    ∃ msg, generate_story selO genO topics theme mood = .error msg ∧
      msg ≠ "" := by
  cases genO with
  | exn m =>
    refine ⟨"Error generating story with Dolphin LLM: " ++ m, ?_,
      append_ne_empty_left _ _ (by decide)⟩
    simp [generate_story]
  | http status response =>
    simp only [llmFailed] at hfail
    refine ⟨"Error generating story with Dolphin LLM: Ollama API error: "
        ++ toString status, ?_, append_ne_empty_left _ _ (by decide)⟩
    simp [generate_story, hfail]

/-! ## Claim theorems -/

/-- **C4, counterexample.** The claim "for every source selector and every
positive limit, `fetch_trends` returns no duplicate strings" is false: with
source `"all"` and limit 2, when both sub-fetches see the same article
`"T"` (they query the same NewsAPI), the result is `["T", "T"]`. -/
theorem C4_counterexample :
    (0 : Int) < 2 ∧ fetch_trends envDupT "all" 2 = ["T", "T"] ∧
    ¬ (fetch_trends envDupT "all" 2).Nodup :=
  ⟨by decide, by decide, by decide⟩

/-- **C4 (amended).** For every source selector and positive limit,
`fetch_trends` returns at most `limit` items; for every single-source
selector (anything but `"all"`) the result additionally has no duplicates
(case-sensitive) and is a sublist — hence preserves first-seen order — of
the concatenated per-category article titles it was drawn from.  For
`"all"`, the two independently deduplicated halves may repeat a string
across each other. -/
theorem C4_theorem (env : TrendsEnv) (source : String) (limit : Int)
    (hlim : 0 < limit) :
    (fetch_trends env source limit).length ≤ limit.toNat ∧
    (source ≠ "all" →
      (fetch_trends env source limit).Nodup ∧
      ((fetch_trends env source limit).Sublist
          ((env.ytResponses.map (categoryTrends env.parse env.now)).flatten) ∨
       (fetch_trends env source limit).Sublist
          ((env.gResponses.map (categoryTrends env.parse env.now)).flatten))) := by
  unfold fetch_trends
  split_ifs with h1 h2 h3
  · exact ⟨fetchSourceTrends_length_le _ _ _ _ (le_of_lt hlim),
      fun _ => ⟨fetchSourceTrends_nodup _ _ _ _,
        .inl (fetchSourceTrends_sublist _ _ _ _)⟩⟩
  · exact ⟨fetchSourceTrends_length_le _ _ _ _ (le_of_lt hlim),
      fun _ => ⟨fetchSourceTrends_nodup _ _ _ _,
        .inr (fetchSourceTrends_sublist _ _ _ _)⟩⟩
  · exact ⟨pyTake_length_le _ (le_of_lt hlim) _,
      fun hne => absurd h3 hne⟩
  · exact ⟨fetchSourceTrends_length_le _ _ _ _ (le_of_lt hlim),
      fun _ => ⟨fetchSourceTrends_nodup _ _ _ _,
        .inr (fetchSourceTrends_sublist _ _ _ _)⟩⟩

/-- Witness for C4 at source `"youtube"`, limit 2 in `envDupT`. -/
theorem C4_witness :
    (fetch_trends envDupT "youtube" 2).length ≤ (2 : Int).toNat ∧
    ((fetch_trends envDupT "youtube" 2).Nodup ∧
     ((fetch_trends envDupT "youtube" 2).Sublist
        ((envDupT.ytResponses.map
            (categoryTrends envDupT.parse envDupT.now)).flatten) ∨
      (fetch_trends envDupT "youtube" 2).Sublist
        ((envDupT.gResponses.map
            (categoryTrends envDupT.parse envDupT.now)).flatten))) :=
  ⟨(C4_theorem envDupT "youtube" 2 (by decide)).1,
   (C4_theorem envDupT "youtube" 2 (by decide)).2 (by decide)⟩

/-- **C5.** For every mood input and every raw backend answer, the theme
selected for a detected mood is a member of the supported theme set, and
`"comedy"` is chosen whenever the call fails (exception or non-200 status)
or the parsed answer (stripped, lowercased) is not a supported theme. -/
theorem C5_theorem (mood : String) (o : LLMOutcome) :
    select_theme_for_mood mood o ∈ SUPPORTED_THEMES ∧
    (llmFailed o → select_theme_for_mood mood o = "comedy") ∧
    (∀ status response, o = LLMOutcome.http status response → status = 200 →
      pyLower (pyStrip response) ∉ SUPPORTED_THEMES →
      select_theme_for_mood mood o = "comedy") := by
  refine ⟨select_theme_for_mood_mem mood o, ?_, ?_⟩
  · intro hf
    cases o with
    | exn m => rfl
    | http status response =>
      simp only [llmFailed] at hf
      simp [select_theme_for_mood, hf]
  · rintro status response rfl h200 hns
    simp [select_theme_for_mood, h200, hns]

/-- Witness for C5 at mood `"happy"` with the garbage answer `"garbage"`. -/
theorem C5_witness :
    select_theme_for_mood "happy" (LLMOutcome.http 200 "garbage")
        ∈ SUPPORTED_THEMES ∧
    select_theme_for_mood "happy" (LLMOutcome.http 200 "garbage")
        = "comedy" :=
  ⟨( C5_theorem "happy" (LLMOutcome.http 200 "garbage")).1,
   ( C5_theorem "happy" (LLMOutcome.http 200 "garbage")).2.2 200 "garbage"
     rfl rfl (by decide)⟩

/-- **C6.** Per-image mood classification: a missing file, a raised
classifier call, a malformed result, or an empty emotion distribution all
yield `"neutral"` without propagating; otherwise the argmax emotion maps
through the fixed `emotion_map` lookup when its confidence exceeds the 0.4
threshold, and yields `"neutral"` when its confidence is at most 0.4. -/
theorem C6_theorem (fileExists : Bool) (o : DeepFaceOutcome) :
    (fileExists = false → recognize_mood_one fileExists o = "neutral") ∧
    (recognize_mood_one true DeepFaceOutcome.raises = "neutral") ∧
    (recognize_mood_one true DeepFaceOutcome.invalid = "neutral") ∧
    (recognize_mood_one true (DeepFaceOutcome.ok []) = "neutral") ∧
    (∀ emotions label conf, o = DeepFaceOutcome.ok emotions →
      argmaxEmotion emotions = some (label, conf) →
      (conf ≤ confidence_threshold →
        recognize_mood_one true o = "neutral") ∧
      (conf > confidence_threshold →
        recognize_mood_one true o =
          (emotion_map.lookup label).getD "neutral")) := by
  refine ⟨?_, rfl, rfl, rfl, ?_⟩
  · rintro rfl; rfl
  · rintro emotions label conf rfl hmax
    constructor
    · intro hle
      simp [recognize_mood_one, hmax, not_lt.mpr hle]
    · intro hgt
      simp [recognize_mood_one, hmax, hgt]

/-- Witness for C6: `"disgust"` at confidence 1/2 maps to `"negative"`;
`"surprise"` at exactly the 2/5 threshold yields `"neutral"`. -/
theorem C6_witness :
    recognize_mood_one true (DeepFaceOutcome.ok [("disgust", 1/2)]) =
      (emotion_map.lookup "disgust").getD "neutral" ∧
    recognize_mood_one true (DeepFaceOutcome.ok [("surprise", 2/5)]) =
      "neutral" :=
  ⟨((C6_theorem true (DeepFaceOutcome.ok [("disgust", 1/2)])).2.2.2.2
      [("disgust", 1/2)] "disgust" (1/2) rfl rfl).2
      (by norm_num [confidence_threshold]),
   ((C6_theorem true (DeepFaceOutcome.ok [("surprise", 2/5)])).2.2.2.2
      [("surprise", 2/5)] "surprise" (2/5) rfl rfl).1
      (by norm_num [confidence_threshold])⟩

/-- **C9.** The topic fetch fails soft (the embedded `fetch_news` and
`fetchSourceTrends` are total functions, so nothing propagates): every
provider call that raises, answers non-200, or returns no articles
contributes `None`/no articles, and when every sampled category fails that
way the fetcher returns the empty sequence. -/
theorem C9_theorem (parse : ParseOracle) (now : Int)
    (outcomes : List ProviderOutcome) (limit : Int)
    (hfail : ∀ o ∈ outcomes, providerFailsOutright o) :
    (∀ o ∈ outcomes, fetch_news parse now o = none ∨
        fetch_news parse now o = some []) ∧
    fetchSourceTrends parse now
      (outcomes.map (fetch_news parse now)) limit = [] :=
  ⟨fun o ho => fetch_news_of_failure parse now o (hfail o ho),
   fetchSourceTrends_of_failures parse now outcomes limit hfail⟩

/-- Witness for C9: one raising call, one 500, one empty 200. -/
theorem C9_witness :
    (fetch_news parse0 0 (ProviderOutcome.http 500 []) = none ∨
     fetch_news parse0 0 (ProviderOutcome.http 500 []) = some []) ∧
    fetchSourceTrends parse0 0
      ([ProviderOutcome.exn, ProviderOutcome.http 500 [],
        ProviderOutcome.http 200 []].map (fetch_news parse0 0)) 5 = [] :=
  ⟨(C9_theorem parse0 0
      [ProviderOutcome.exn, ProviderOutcome.http 500 [],
       ProviderOutcome.http 200 []] 5 (by decide)).1
      (ProviderOutcome.http 500 []) (by decide),
   (C9_theorem parse0 0
      [ProviderOutcome.exn, ProviderOutcome.http 500 [],
       ProviderOutcome.http 200 []] 5 (by decide)).2⟩

/-- **C1, counterexample.** The claim fails on the code: with a single
provider call that raises, `fetch_trends` yields `[]`, and the handler
answers `INTERNAL` with an empty `topicsUsed` — the fallback list is never
engaged and the request does not succeed. -/
theorem C1_counterexample :
    envC1.trends.gOutcomes = [ProviderOutcome.exn] ∧
    (grpc_Generate envC1 reqC1).code = RpcStatus.internal ∧
    (grpc_Generate envC1 reqC1).response.topicsUsed = [] :=
  ⟨rfl, by decide, by decide⟩

/-- **C1 (amended).** When every trend-provider call fails outright, the
`grpc_server.py` handler rejects the request with `INTERNAL` and an empty
`topicsUsed`; the hard-coded fallback list is defined (non-empty for any
positive limit) but no production code path consults it. -/
theorem C1_theorem (env : GrpcEnv) (req : GenRequest)
    (hg : ∀ o ∈ env.trends.gOutcomes, providerFailsOutright o)
    (himg : pyStrip req.imagePath = "") :
    (grpc_Generate env req).code = RpcStatus.internal ∧
    (grpc_Generate env req).response.topicsUsed = [] ∧
    (∀ limit : Int, 0 < limit → get_fallback_trends limit ≠ []) := by
  have htop : fetch_trends env.trends "news" req.limit = [] := by
    rw [fetch_trends_news]
    exact fetchSourceTrends_of_failures env.trends.parse env.trends.now
      env.trends.gOutcomes req.limit hg
  have hres : grpc_Generate env req =
      { code := .internal, details := "Failed to fetch trending topics",
        response := emptyResponse } := by
    unfold grpc_Generate
    rw [htop]
    simp [himg]
  refine ⟨by rw [hres], by rw [hres]; rfl, ?_⟩
  intro limit hl
  unfold get_fallback_trends
  exact pyTake_ne_nil limit hl _ (by decide)

/-- Witness for C1 in `envC1` with fallback limit 3. -/
theorem C1_witness :
    (grpc_Generate envC1 reqC1).code = RpcStatus.internal ∧
    (grpc_Generate envC1 reqC1).response.topicsUsed = [] ∧
    get_fallback_trends 3 ≠ [] :=
  ⟨(C1_theorem envC1 reqC1 (by decide) (by decide)).1,
   (C1_theorem envC1 reqC1 (by decide) (by decide)).2.1,
   (C1_theorem envC1 reqC1 (by decide) (by decide)).2.2 3 (by decide)⟩

/-- **C2.** In the packaged servicer (`trendstory/service.py`), every
request with a non-empty theme outside the supported set is rejected with
`INVALID_ARGUMENT` and no downstream call (trend fetch or story
generation) is made. -/
theorem C2_theorem (env : GrpcEnv) (req : GenRequest)
    (h1 : req.theme ≠ "") (h2 : req.theme ∉ SUPPORTED_THEMES) :
    (∃ msg, (service_Generate env req).1 =
        Except.error (RpcStatus.invalidArgument, msg)) ∧
    (service_Generate env req).2 = [] := by
  unfold service_Generate
  by_cases hs1 : req.source = ""
  · rw [if_pos hs1]
    exact ⟨⟨_, rfl⟩, rfl⟩
  · rw [if_neg hs1]
    by_cases hs2 : req.source ∉ SUPPORTED_SOURCES
    · rw [if_pos hs2]
      exact ⟨⟨_, rfl⟩, rfl⟩
    · rw [if_neg hs2]
      rw [if_pos (show (decide (req.theme ≠ "") &&
          decide (req.theme ∉ SUPPORTED_THEMES)) = true by simp [h1, h2])]
      exact ⟨⟨_, rfl⟩, rfl⟩

/-- Witness for C2 at the spec's scenario theme `"not-a-real-theme"`. -/
theorem C2_witness :
    (service_Generate envOk reqBadTheme).1 =
      Except.error (RpcStatus.invalidArgument,
        "Unsupported theme: not-a-real-theme") ∧
    (service_Generate envOk reqBadTheme).2 = [] :=
  ⟨rfl, (C2_theorem envOk reqBadTheme (by decide) (by decide)).2⟩

/-- **C3, counterexample.** The claim fails for the classifier-failure
case: with an existing image on which `DeepFace.analyze` raises, the
recognizer answers `"neutral"`, the handler treats that as a detected mood
and asks the LLM for a theme — here `"mystery"`, not `"comedy"`. -/
theorem C3_counterexample :
    reqC3.theme = "" ∧ envC3.dfOutcome = DeepFaceOutcome.raises ∧
    (grpc_Generate envC3 reqC3).code = RpcStatus.ok ∧
    (grpc_Generate envC3 reqC3).response.metaTheme = "mystery" ∧
    (grpc_Generate envC3 reqC3).response.metaTheme ≠ "comedy" ∧
    (grpc_Generate envC3 reqC3).response.detectedMood = "neutral" :=
  ⟨rfl, rfl, by decide, by decide, by decide, by decide⟩

/-- **C3 (amended).** For a request with empty theme: when no usable image
path is supplied, the successful response's theme is exactly `"comedy"`;
when the image exists but the classifier raises, the detected mood is
`"neutral"` and the theme is whatever the LLM selector answers for
`"neutral"` — a supported theme, but not necessarily `"comedy"`. -/
theorem C3_theorem (env : GrpcEnv) (req : GenRequest)
    (hth : req.theme = "") :
    (pyStrip req.imagePath = "" →
      (grpc_Generate env req).code = RpcStatus.ok →
      (grpc_Generate env req).response.metaTheme = "comedy") ∧
    (pyStrip req.imagePath ≠ "" → env.imageExists = true →
      env.dfOutcome = DeepFaceOutcome.raises →
      (grpc_Generate env req).code = RpcStatus.ok →
      (grpc_Generate env req).response.metaTheme =
        select_theme_for_mood "neutral" env.selOutcome ∧
      (grpc_Generate env req).response.metaTheme ∈ SUPPORTED_THEMES ∧
      (grpc_Generate env req).response.detectedMood = "neutral") := by
  constructor
  · intro himg hok
    have hdet : grpcDetectedMood env req = none := by
      unfold grpcDetectedMood
      simp [himg]
    have hsel : grpcSelectedTheme env req = "comedy" := by
      simp only [grpcSelectedTheme, hdet, hth]
      decide
    rcases grpc_Generate_cases env req with ⟨hc, h⟩ | ⟨ht, h⟩ |
        ⟨msg, hg, h⟩ | ⟨result, hg, h⟩
    · rw [himg] at hc; simp at hc
    · rw [h] at hok; simp at hok
    · rw [h] at hok; simp at hok
    · rw [h]
      exact hsel
  · intro himg hex hdf hok
    have himp : req.imagePath ≠ "" := by
      intro h
      exact himg (by rw [h]; rfl)
    have hdet : grpcDetectedMood env req = some "neutral" := by
      unfold grpcDetectedMood
      rw [if_pos (by simp [himp, himg])]
      rw [hex, hdf]
      rfl
    have hsel : grpcSelectedTheme env req =
        select_theme_for_mood "neutral" env.selOutcome := by
      simp only [grpcSelectedTheme, hdet, hth]
      rw [if_neg (show ¬ ("" : String) ≠ "" from fun hh => hh rfl)]
      rw [supported_guard_false _ (select_theme_for_mood_mem "neutral"
        env.selOutcome)]
      simp
    rcases grpc_Generate_cases env req with ⟨hc, h⟩ | ⟨ht, h⟩ |
        ⟨msg, hg, h⟩ | ⟨result, hg, h⟩
    · rw [hex] at hc; simp at hc
    · rw [h] at hok; simp at hok
    · rw [h] at hok; simp at hok
    · rw [h]
      refine ⟨hsel, ?_, by rw [hdet]; rfl⟩
      rw [hsel]
      exact select_theme_for_mood_mem "neutral" env.selOutcome

/-- Witness for C3 at a no-image request in a healthy environment. -/
theorem C3_witness :
    (grpc_Generate envOk reqNoThemeNoImg).response.metaTheme = "comedy" :=
  (C3_theorem envOk reqNoThemeNoImg rfl).1 (by decide) (by decide)

/-- **C7.** In both handlers, a request with a non-empty supported theme
that completes successfully reports exactly the requested theme in the
response metadata. -/
theorem C7_theorem (env : GrpcEnv) (req : GenRequest)
    (hmem : req.theme ∈ SUPPORTED_THEMES) :
    ((grpc_Generate env req).code = RpcStatus.ok →
      (grpc_Generate env req).response.metaTheme = req.theme) ∧
    (∀ resp, (service_Generate env req).1 = Except.ok resp →
      resp.metaTheme = req.theme) := by
  have hne : req.theme ≠ "" := by
    intro h
    rw [h] at hmem
    simp [SUPPORTED_THEMES] at hmem
  have hsel : grpcSelectedTheme env req = req.theme := by
    simp only [grpcSelectedTheme]
    rw [if_pos hne, supported_guard_false req.theme hmem]
    rfl
  constructor
  · intro hok
    rcases grpc_Generate_cases env req with ⟨hc, h⟩ | ⟨ht, h⟩ |
        ⟨msg, hg, h⟩ | ⟨result, hg, h⟩
    · rw [h] at hok; simp at hok
    · rw [h] at hok; simp at hok
    · rw [h] at hok; simp at hok
    · rw [h]
      exact hsel
  · intro resp hresp
    unfold service_Generate at hresp
    by_cases hs1 : req.source = ""
    · rw [if_pos hs1] at hresp
      simp at hresp
    · rw [if_neg hs1] at hresp
      by_cases hs2 : req.source ∉ SUPPORTED_SOURCES
      · rw [if_pos hs2] at hresp
        simp at hresp
      · rw [if_neg hs2] at hresp
        rw [show (decide (req.theme ≠ "") &&
            decide (req.theme ∉ SUPPORTED_THEMES)) = false
            by simp [hmem]] at hresp
        rw [if_neg (show ¬ (false = true) by decide)] at hresp
        rcases hgen : generate_story env.selOutcome env.genOutcome
            (fetch_trends env.trends req.source (serviceLimit req))
            (serviceTheme req) "" with msg | result
        · rw [hgen] at hresp
          simp at hresp
        · rw [hgen] at hresp
          simp only [Except.ok.injEq] at hresp
          rw [← hresp]
          simp only [serviceTheme]
          rw [if_pos hne]

/-- Witness for C7 at theme `"comedy"` in a healthy environment. -/
theorem C7_witness :
    (grpc_Generate envOk reqComedy).response.metaTheme = "comedy" ∧
    (GenResponse.metaTheme
      { story := "s", statusCode := 0, errorMessage := "",
        topicsUsed := ["T"], metaTheme := "comedy", metaMood := "",
        metaSource := "youtube", detectedMood := "" }) = "comedy" :=
  ⟨(C7_theorem envOk reqComedy (by decide)).1 (by decide),
   (C7_theorem envOk reqComedy (by decide)).2
     { story := "s", statusCode := 0, errorMessage := "",
       topicsUsed := ["T"], metaTheme := "comedy", metaMood := "",
       metaSource := "youtube", detectedMood := "" } (by rfl)⟩

/-- **C8.** Whenever the generation backend fails (transport error or
non-200 status) on a request that passed the image check and obtained
topics, the request fails with `INTERNAL` carrying a non-empty error
message, a `status_code` of 1, and no story text. -/
theorem C8_theorem (env : GrpcEnv) (req : GenRequest)
    (hfail : llmFailed env.genOutcome)
    (himg : pyStrip req.imagePath = "" ∨ env.imageExists = true)
    (htop : fetch_trends env.trends "news" req.limit ≠ []) :
    (grpc_Generate env req).code = RpcStatus.internal ∧
    (grpc_Generate env req).response.story = "" ∧
    (grpc_Generate env req).response.statusCode = 1 ∧
    (grpc_Generate env req).details ≠ "" := by
  obtain ⟨emsg, hmsg, hne⟩ := generate_story_failed env.selOutcome
    env.genOutcome (fetch_trends env.trends "news" req.limit)
    (grpcSelectedTheme env req) ((grpcDetectedMood env req).getD "") hfail
  rcases grpc_Generate_cases env req with ⟨hc, h⟩ | ⟨ht, h⟩ |
      ⟨msg, hg, h⟩ | ⟨result, hg, h⟩
  · rcases himg with hi | hi
    · rw [hi] at hc
      simp at hc
    · rw [hi] at hc
      simp at hc
  · exact absurd ht htop
  · rw [hmsg] at hg
    injection hg with hg'
    refine ⟨by rw [h], by rw [h], by rw [h], ?_⟩
    rw [h]
    rw [← hg']
    exact hne
  · rw [hmsg] at hg
    exact Except.noConfusion hg

/-- Witness for C8 with a 500-answering generation backend. -/
theorem C8_witness :
    (grpc_Generate envGen500 reqComedy).code = RpcStatus.internal ∧
    (grpc_Generate envGen500 reqComedy).response.story = "" ∧
    (grpc_Generate envGen500 reqComedy).response.statusCode = 1 ∧
    (grpc_Generate envGen500 reqComedy).details ≠ "" :=
  C8_theorem envGen500 reqComedy (by decide) (Or.inl (by decide)) (by decide)

/-- **C10, counterexample.** The claim fails for the empty theme string:
`generate_story` replaces it by `"comedy"` (via the comedy default, using
the comedy template rather than the default one), so `""` is not echoed
into the metadata. -/
theorem C10_counterexample :
    generate_story (LLMOutcome.http 200 "x") (LLMOutcome.http 200 "s")
        ["t"] "" "" =
      Except.ok { story := "s", metaTheme := "comedy",
                  metaMood := "neutral", topicsUsed := ["t"] } ∧
    prompt_template "comedy" ≠ prompt_template "default" ∧
    ("comedy" : String) ≠ "" :=
  ⟨rfl, by decide, by decide⟩

/-- **C10 (amended).** For every NON-empty theme string — including
strings outside the supported set — `generate_story` with a successful
backend builds its prompt (from the theme's template, or the `"default"`
template when the theme has no entry) and echoes the theme string
unvalidated into the result metadata. -/
theorem C10_theorem (selO : LLMOutcome) (status : Nat) (response : String)
    (topics : List String) (theme mood : String)
    (hth : theme ≠ "") (hs : status = 200) :
    generate_story selO (LLMOutcome.http status response) topics theme
        mood =
      Except.ok { story := response, metaTheme := theme,
                  metaMood := if mood = "" then "neutral" else mood,
                  topicsUsed := topics } ∧
    (PROMPT_TEMPLATES.lookup theme = none →
      prompt_template theme = prompt_template "default") := by
  constructor
  · subst hs
    simp [generate_story, hth]
  · intro hl
    unfold prompt_template
    rw [hl]
    rfl

/-- Witness for C10 at the out-of-set theme `"weird-theme"`. -/
theorem C10_witness :
    generate_story (LLMOutcome.exn "down") (LLMOutcome.http 200 "s")
        ["t"] "weird-theme" "" =
      Except.ok { story := "s", metaTheme := "weird-theme",
                  metaMood := "neutral", topicsUsed := ["t"] } ∧
    prompt_template "weird-theme" = prompt_template "default" :=
  ⟨(C10_theorem (LLMOutcome.exn "down") 200 "s" ["t"] "weird-theme" ""
      (by decide) rfl).1,
   (C10_theorem (LLMOutcome.exn "down") 200 "s" ["t"] "weird-theme" ""
      (by decide) rfl).2 (by decide)⟩

end TrendStory
